import Mathlib

/-!
Verification of the `cherrypick` package (internal/cherrypick) and the
`cherry-pick` CLI (cmd/cherry-pick/main.go) of vdemeester/workflows-experiments.

The Go code is shallowly embedded: the two ports (`GitHubClient`, `GitRunner`)
become records of pure functions (test doubles), and the service functions are
translated statement by statement.  Every externally visible call the service
makes (GitHub API calls and git commands) is collected in an explicit trace so
that claims about which operations are issued, and in which order, can be
stated and proved.  Go errors are modelled by their message string; a Go
`(T, error)` return becomes `Except String T` when the caller checks the error
first, and a pair when both components are used independently.
-/

/-- Embeds the subset of go-github's `PullRequest` that the code reads.
Pointer-typed Go fields become `Option`s. -/
structure PullRequest where
  number : Option Int
  merged : Option Bool
  state : Option String
  mergeCommitSHA : Option String
  htmlURL : Option String
deriving Repr, DecidableEq

/-- go-github getter `GetState`: empty string when the field is nil. -/
def PullRequest.GetState (pr : PullRequest) : String :=
  pr.state.getD ""

/-- go-github getter `GetMergeCommitSHA`: empty string when the field is nil. -/
def PullRequest.GetMergeCommitSHA (pr : PullRequest) : String :=
  pr.mergeCommitSHA.getD ""

/-- go-github getter `GetNumber`: zero when the field is nil. -/
def PullRequest.GetNumber (pr : PullRequest) : Int :=
  pr.number.getD 0

/-- Embeds go-github's `NewPullRequest` (the fields the code sets). -/
structure NewPullRequest where
  title : Option String
  body : Option String
  head : Option String
  base : Option String
deriving Repr, DecidableEq

/-- Embeds `Config` (cherrypick.go). -/
structure Config where
  PRNumber : Int
  Branches : List String
  RepoOwner : String
  RepoName : String
  GitUserName : String
  GitUserEmail : String
deriving Repr, DecidableEq

/-- Embeds `Result` (cherrypick.go).  `Error` is the message string of the Go
error (`none` = nil error). -/
structure Result where
  Branch : String
  Success : Bool
  ExistingPR : Option PullRequest
  NewPR : Option PullRequest
  Error : Option String
  ErrorMessage : String
deriving Repr, DecidableEq

/-- Embeds the `GitHubClient` interface.  `GetPR` and `CreatePR` are checked
err-first by the caller, so they return `Except`; `FindExistingPR`'s two Go
return values are used independently by the caller, so it returns the pair
(pull request or nil, error or nil). -/
structure GitHubClient where
  GetPR : String → String → Int → Except String PullRequest
  FindExistingPR : String → String → String → String → Option PullRequest × Option String
  CreatePR : String → String → NewPullRequest → Except String PullRequest

/-- Embeds the `GitRunner` interface: one git invocation, `none` = success,
`some msg` = failed with that combined-output error. -/
structure GitRunner where
  Run : List String → Option String

/-- Embeds `Service` (cherrypick.go). -/
structure Service where
  github : GitHubClient
  git : GitRunner

/-- One externally visible call made by the service, recorded in order. -/
inductive Call where
  | getPR (owner repo : String) (number : Int)
  | findExistingPR (owner repo head base : String)
  | createPR (owner repo : String) (npr : NewPullRequest)
  | git (args : List String)
deriving Repr, DecidableEq

/-- The git commands of a trace, in order. -/
def gitCalls (calls : List Call) : List (List String) :=
  calls.filterMap fun c =>
    match c with
    | .git args => some args
    | _ => none

/-- The deterministic cherry-pick branch name computed in `ProcessBranch`:
`fmt.Sprintf("cherry-pick-%d-to-%s", cfg.PRNumber, targetBranch)`. -/
def cherryPickBranchName (prNumber : Int) (targetBranch : String) : String :=
  "cherry-pick-" ++ toString prNumber ++ "-to-" ++ targetBranch

/-- The follow-up PR title built in `ProcessBranch`:
`fmt.Sprintf("Cherry-pick #%d to %s", ...)`. -/
def prTitle (prNumber : Int) (targetBranch : String) : String :=
  "Cherry-pick #" ++ toString prNumber ++ " to " ++ targetBranch

/-- The follow-up PR body built in `ProcessBranch`. -/
def prBody (prNumber : Int) (targetBranch : String) : String :=
  "Automatic cherry-pick of #" ++ toString prNumber ++ " to `" ++ targetBranch ++ "`"

/-- The `NewPullRequest` value passed to `CreatePR` by `ProcessBranch`. -/
def mkNewPullRequest (prNumber : Int) (targetBranch : String) : NewPullRequest :=
  { title := some (prTitle prNumber targetBranch)
    body := some (prBody prNumber targetBranch)
    head := some (cherryPickBranchName prNumber targetBranch)
    base := some targetBranch }

/-- Embeds `Service.performGitOperations`, returning the Go error (or none) and
the ordered list of git commands issued (the abort in the cherry-pick failure
path included; its own error is discarded, as in the source). -/
def Service.performGitOperations (s : Service) (cfg : Config)
    (targetBranch cherryPickBranch mergeCommit : String) :
    Option String × List (List String) :=
  let c1 := ["config", "user.name", cfg.GitUserName]
  match s.git.Run c1 with
  | some e => (some ("failed to configure git user name: " ++ e), [c1])
  | none =>
  let c2 := ["config", "user.email", cfg.GitUserEmail]
  match s.git.Run c2 with
  | some e => (some ("failed to configure git user email: " ++ e), [c1, c2])
  | none =>
  let c3 := ["fetch", "origin", targetBranch]
  match s.git.Run c3 with
  | some e =>
      (some ("target branch \x27" ++ targetBranch ++
        "\x27 does not exist or cannot be fetched: " ++ e), [c1, c2, c3])
  | none =>
  let c4 := ["checkout", "-b", cherryPickBranch, "origin/" ++ targetBranch]
  match s.git.Run c4 with
  | some e => (some ("failed to create cherry-pick branch: " ++ e), [c1, c2, c3, c4])
  | none =>
  let c5 := ["cherry-pick", "-m", "1", mergeCommit]
  match s.git.Run c5 with
  | some e =>
      -- Abort cherry-pick on failure; `_ = s.git.Run(...)`: error ignored.
      let abortCmd := ["cherry-pick", "--abort"]
      let _ := s.git.Run abortCmd
      (some ("cherry-pick failed due to conflicts or other errors: " ++ e),
        [c1, c2, c3, c4, c5, abortCmd])
  | none =>
  let c6 := ["push", "origin", cherryPickBranch]
  match s.git.Run c6 with
  | some e => (some ("failed to push cherry-pick branch: " ++ e), [c1, c2, c3, c4, c5, c6])
  | none => (none, [c1, c2, c3, c4, c5, c6])

/-- Embeds `Service.ProcessBranch`, returning the `Result` together with the
trace of GitHub and git calls issued, in order.  Log statements are dropped
(they carry no data the result depends on). -/
def Service.ProcessBranch (s : Service) (cfg : Config) (targetBranch : String) :
    Result × List Call :=
  let result0 : Result :=
    { Branch := targetBranch, Success := false, ExistingPR := none, NewPR := none,
      Error := none, ErrorMessage := "" }
  let getCall := Call.getPR cfg.RepoOwner cfg.RepoName cfg.PRNumber
  match s.github.GetPR cfg.RepoOwner cfg.RepoName cfg.PRNumber with
  | .error err =>
      ({ result0 with
          Error := some err,
          ErrorMessage := "Failed to fetch PR #" ++ toString cfg.PRNumber ++ ": " ++ err },
       [getCall])
  | .ok pr =>
  -- `if pr.Merged == nil || !*pr.Merged`: the complement of `merged = some true`.
  if pr.merged = some true then
    let mergeCommit := pr.GetMergeCommitSHA
    let cherryPickBranch := cherryPickBranchName cfg.PRNumber targetBranch
    let findCall := Call.findExistingPR cfg.RepoOwner cfg.RepoName cherryPickBranch targetBranch
    -- The error component is only logged as a warning; the result ignores it.
    let existingPR :=
      (s.github.FindExistingPR cfg.RepoOwner cfg.RepoName cherryPickBranch targetBranch).1
    match existingPR with
    | some epr =>
        ({ result0 with Success := true, ExistingPR := some epr }, [getCall, findCall])
    | none =>
      match s.performGitOperations cfg targetBranch cherryPickBranch mergeCommit with
      | (some e, gitTrace) =>
          ({ result0 with Error := some e, ErrorMessage := e },
           [getCall, findCall] ++ gitTrace.map Call.git)
      | (none, gitTrace) =>
        let npr := mkNewPullRequest cfg.PRNumber targetBranch
        let createCall := Call.createPR cfg.RepoOwner cfg.RepoName npr
        match s.github.CreatePR cfg.RepoOwner cfg.RepoName npr with
        | .error err =>
            ({ result0 with
                Error := some err,
                ErrorMessage := "Failed to create pull request: " ++ err },
             [getCall, findCall] ++ gitTrace.map Call.git ++ [createCall])
        | .ok newPR =>
            ({ result0 with Success := true, NewPR := some newPR },
             [getCall, findCall] ++ gitTrace.map Call.git ++ [createCall])
  else
    ({ result0 with ErrorMessage :=
        "PR #" ++ toString cfg.PRNumber ++ " is not merged yet (state: " ++
        pr.GetState ++ "). Cherry-pick requires merged PRs." },
     [getCall])

/-- Embeds `Service.ProcessBranches`.  In the source each goroutine writes
`results[index] = s.ProcessBranch(ctx, cfg, targetBranch)` for its own index
only and the WaitGroup joins them all before `results` is returned, so the
returned slice is exactly the per-index image of `ProcessBranch`. -/
def Service.ProcessBranches (s : Service) (cfg : Config) : List Result :=
  cfg.Branches.map fun branch => (s.ProcessBranch cfg branch).1

/-- Embeds `ValidateConfig`. -/
def ValidateConfig (cfg : Config) : Option String :=
  if cfg.PRNumber = 0 then
    some "PR number is required"
  else if cfg.Branches.length = 0 then
    some "at least one target branch is required"
  else if cfg.RepoOwner = "" ∨ cfg.RepoName = "" then
    some "repository owner and name are required"
  else
    none

/-- Embeds go-github's `PullRequests.List` options as built by
`DefaultGitHubClient.FindExistingPR`. -/
structure PullRequestListOptions where
  state : String
  head : String
  base : String
  perPage : Int
deriving Repr, DecidableEq

/-- Embeds `DefaultGitHubClient.FindExistingPR`: builds the list options with
head `owner:head`, base `base`, page size 1, and returns the first match (or
none, or the transport error).  The wire call `client.PullRequests.List` is the
`listPRs` parameter. -/
def DefaultGitHubClient.FindExistingPR
    (listPRs : String → String → PullRequestListOptions → Except String (List PullRequest))
    (owner repo head base : String) : Option PullRequest × Option String :=
  let opts : PullRequestListOptions :=
    { state := "all", head := owner ++ ":" ++ head, base := base, perPage := 1 }
  match listPRs owner repo opts with
  | .error err => (none, some err)
  | .ok prs =>
    if prs.length > 0 then (prs.head?, none)
    else (none, none)

/-- Embeds the results-checking tail of `run` (cmd/cherry-pick/main.go): after
validation and `ProcessBranches`, return an error iff some result has
`!result.Success && result.ExistingPR == nil` (the first such, as the Go loop
returns on it).  The notification side effects (reaction, comments) carry no
data into the return value and are dropped. -/
def run (s : Service) (cfg : Config) : Option String :=
  match ValidateConfig cfg with
  | some e => some e
  | none =>
    let results := s.ProcessBranches cfg
    match results.find? (fun r => !r.Success && r.ExistingPR.isNone) with
    | some r => some ("cherry-pick to " ++ r.Branch ++ " failed")
    | none => none

/-! ## Helper lemmas -/

/-- A string with a non-empty literal head is non-empty. -/
theorem append_ne_empty_of_left_ne_empty (a b : String) (h : a.length > 0) :
    a ++ b ≠ "" := by
  intro hcontra
  have hlen := congrArg String.length hcontra
  rw [String.length_append] at hlen
  have hz : ("" : String).length = 0 := rfl
  omega

/-- Every path of `ProcessBranch` leaves the `Branch` field at the target
branch it was invoked for. -/
theorem processBranch_branch_eq (s : Service) (cfg : Config) (targetBranch : String) :
    (s.ProcessBranch cfg targetBranch).1.Branch = targetBranch := by
  unfold Service.ProcessBranch
  cases s.github.GetPR cfg.RepoOwner cfg.RepoName cfg.PRNumber with
  | error err => rfl
  | ok pr =>
    simp only
    split
    · cases hfind : (s.github.FindExistingPR cfg.RepoOwner cfg.RepoName
        (cherryPickBranchName cfg.PRNumber targetBranch) targetBranch).1 with
      | some epr => simp [hfind]
      | none =>
        simp only [hfind]
        cases hgit : s.performGitOperations cfg targetBranch
            (cherryPickBranchName cfg.PRNumber targetBranch) pr.GetMergeCommitSHA with
        | mk gerr gtrace =>
          cases gerr with
          | some e => simp [hgit]
          | none =>
            simp only [hgit]
            cases s.github.CreatePR cfg.RepoOwner cfg.RepoName
                (mkNewPullRequest cfg.PRNumber targetBranch) with
            | error err => rfl
            | ok newPR => rfl
    · rfl

/-! ## Claims -/

/-- Claim C1: for every Config and target branch, if GetPR returns a merged
pull request, FindExistingPR returns no match, every git command succeeds and
CreatePR succeeds, then ProcessBranch issues exactly six git operations in
order — config user.name, config user.email, fetch origin target,
checkout -b deterministic-branch origin/target, cherry-pick -m 1 merge-commit,
push origin deterministic-branch — and returns Success=true with NewPR set to
the created pull request. -/
theorem c1_full_success_six_git_ops (s : Service) (cfg : Config)
    (targetBranch : String) (pr newPR : PullRequest)
    (hget : s.github.GetPR cfg.RepoOwner cfg.RepoName cfg.PRNumber = .ok pr)
    (hmerged : pr.merged = some true)
    (hfind : (s.github.FindExistingPR cfg.RepoOwner cfg.RepoName
        (cherryPickBranchName cfg.PRNumber targetBranch) targetBranch).1 = none)
    (hgit : ∀ args, s.git.Run args = none)
    (hcreate : s.github.CreatePR cfg.RepoOwner cfg.RepoName
        (mkNewPullRequest cfg.PRNumber targetBranch) = .ok newPR) :
    gitCalls (s.ProcessBranch cfg targetBranch).2 =
      [["config", "user.name", cfg.GitUserName],
       ["config", "user.email", cfg.GitUserEmail],
       ["fetch", "origin", targetBranch],
       ["checkout", "-b", cherryPickBranchName cfg.PRNumber targetBranch,
        "origin/" ++ targetBranch],
       ["cherry-pick", "-m", "1", pr.GetMergeCommitSHA],
       ["push", "origin", cherryPickBranchName cfg.PRNumber targetBranch]] ∧
    (s.ProcessBranch cfg targetBranch).1.Success = true ∧
    (s.ProcessBranch cfg targetBranch).1.NewPR = some newPR := by
  unfold Service.ProcessBranch
  rw [hget]
  simp only [hmerged, if_pos rfl, hfind, Service.performGitOperations, hgit, hcreate,
    gitCalls, List.filterMap]
  simp

/-- Witness for C1 at a concrete service and configuration. -/
theorem c1_full_success_six_git_ops_witness :
    gitCalls ((Service.mk
        (GitHubClient.mk
          (fun _ _ _ => .ok (PullRequest.mk (some 7) (some true) (some "closed")
            (some "abc123") none))
          (fun _ _ _ _ => (none, none))
          (fun _ _ _ => .ok (PullRequest.mk (some 9) none none none none)))
        (GitRunner.mk (fun _ => none))).ProcessBranch
        (Config.mk 7 ["release-1.0"] "o" "r" "bot" "bot@example.com")
        "release-1.0").2 =
      [["config", "user.name", "bot"],
       ["config", "user.email", "bot@example.com"],
       ["fetch", "origin", "release-1.0"],
       ["checkout", "-b", cherryPickBranchName 7 "release-1.0",
        "origin/" ++ "release-1.0"],
       ["cherry-pick", "-m", "1",
        (PullRequest.mk (some 7) (some true) (some "closed") (some "abc123")
          none).GetMergeCommitSHA],
       ["push", "origin", cherryPickBranchName 7 "release-1.0"]] ∧
    ((Service.mk
        (GitHubClient.mk
          (fun _ _ _ => .ok (PullRequest.mk (some 7) (some true) (some "closed")
            (some "abc123") none))
          (fun _ _ _ _ => (none, none))
          (fun _ _ _ => .ok (PullRequest.mk (some 9) none none none none)))
        (GitRunner.mk (fun _ => none))).ProcessBranch
        (Config.mk 7 ["release-1.0"] "o" "r" "bot" "bot@example.com")
        "release-1.0").1.Success = true ∧
    ((Service.mk
        (GitHubClient.mk
          (fun _ _ _ => .ok (PullRequest.mk (some 7) (some true) (some "closed")
            (some "abc123") none))
          (fun _ _ _ _ => (none, none))
          (fun _ _ _ => .ok (PullRequest.mk (some 9) none none none none)))
        (GitRunner.mk (fun _ => none))).ProcessBranch
        (Config.mk 7 ["release-1.0"] "o" "r" "bot" "bot@example.com")
        "release-1.0").1.NewPR = some (PullRequest.mk (some 9) none none none none) :=
  c1_full_success_six_git_ops _ _ "release-1.0"
    (PullRequest.mk (some 7) (some true) (some "closed") (some "abc123") none)
    (PullRequest.mk (some 9) none none none none)
    rfl rfl rfl (fun _ => rfl) rfl

/-- Claim C2: if the pipeline reaches the replay step (merged PR, no existing
follow-up, config/fetch/checkout succeed) and the cherry-pick command fails,
ProcessBranch issues `cherry-pick --abort` immediately after the failed
cherry-pick (ignoring the abort's own outcome), never issues a push command,
and returns Success=false with a non-nil Error. -/
theorem c2_cherry_pick_failure_aborts (s : Service) (cfg : Config)
    (targetBranch : String) (pr : PullRequest) (e : String)
    (hget : s.github.GetPR cfg.RepoOwner cfg.RepoName cfg.PRNumber = .ok pr)
    (hmerged : pr.merged = some true)
    (hfind : (s.github.FindExistingPR cfg.RepoOwner cfg.RepoName
        (cherryPickBranchName cfg.PRNumber targetBranch) targetBranch).1 = none)
    (hg1 : s.git.Run ["config", "user.name", cfg.GitUserName] = none)
    (hg2 : s.git.Run ["config", "user.email", cfg.GitUserEmail] = none)
    (hg3 : s.git.Run ["fetch", "origin", targetBranch] = none)
    (hg4 : s.git.Run ["checkout", "-b", cherryPickBranchName cfg.PRNumber targetBranch,
        "origin/" ++ targetBranch] = none)
    (hg5 : s.git.Run ["cherry-pick", "-m", "1", pr.GetMergeCommitSHA] = some e) :
    gitCalls (s.ProcessBranch cfg targetBranch).2 =
      [["config", "user.name", cfg.GitUserName],
       ["config", "user.email", cfg.GitUserEmail],
       ["fetch", "origin", targetBranch],
       ["checkout", "-b", cherryPickBranchName cfg.PRNumber targetBranch,
        "origin/" ++ targetBranch],
       ["cherry-pick", "-m", "1", pr.GetMergeCommitSHA],
       ["cherry-pick", "--abort"]] ∧
    (∀ c ∈ gitCalls (s.ProcessBranch cfg targetBranch).2, c.head? ≠ some "push") ∧
    (s.ProcessBranch cfg targetBranch).1.Success = false ∧
    (s.ProcessBranch cfg targetBranch).1.Error.isSome := by
  unfold Service.ProcessBranch
  rw [hget]
  simp only [hmerged, if_pos rfl, hfind, Service.performGitOperations,
    hg1, hg2, hg3, hg4, hg5, gitCalls, List.filterMap]
  simp

/-- Witness for C2 at a concrete service in which only the cherry-pick command
fails. -/
theorem c2_cherry_pick_failure_aborts_witness :
    gitCalls ((Service.mk
        (GitHubClient.mk
          (fun _ _ _ => .ok (PullRequest.mk (some 7) (some true) (some "closed")
            (some "abc123") none))
          (fun _ _ _ _ => (none, none))
          (fun _ _ _ => .error "unused"))
        (GitRunner.mk (fun args =>
          if args = ["cherry-pick", "-m", "1", "abc123"] then some "conflict"
          else none))).ProcessBranch
        (Config.mk 7 ["release-1.0"] "o" "r" "bot" "bot@example.com")
        "release-1.0").2 =
      [["config", "user.name", "bot"],
       ["config", "user.email", "bot@example.com"],
       ["fetch", "origin", "release-1.0"],
       ["checkout", "-b", cherryPickBranchName 7 "release-1.0",
        "origin/" ++ "release-1.0"],
       ["cherry-pick", "-m", "1",
        (PullRequest.mk (some 7) (some true) (some "closed") (some "abc123")
          none).GetMergeCommitSHA],
       ["cherry-pick", "--abort"]] ∧
    (∀ c ∈ gitCalls ((Service.mk
        (GitHubClient.mk
          (fun _ _ _ => .ok (PullRequest.mk (some 7) (some true) (some "closed")
            (some "abc123") none))
          (fun _ _ _ _ => (none, none))
          (fun _ _ _ => .error "unused"))
        (GitRunner.mk (fun args =>
          if args = ["cherry-pick", "-m", "1", "abc123"] then some "conflict"
          else none))).ProcessBranch
        (Config.mk 7 ["release-1.0"] "o" "r" "bot" "bot@example.com")
        "release-1.0").2, c.head? ≠ some "push") ∧
    ((Service.mk
        (GitHubClient.mk
          (fun _ _ _ => .ok (PullRequest.mk (some 7) (some true) (some "closed")
            (some "abc123") none))
          (fun _ _ _ _ => (none, none))
          (fun _ _ _ => .error "unused"))
        (GitRunner.mk (fun args =>
          if args = ["cherry-pick", "-m", "1", "abc123"] then some "conflict"
          else none))).ProcessBranch
        (Config.mk 7 ["release-1.0"] "o" "r" "bot" "bot@example.com")
        "release-1.0").1.Success = false ∧
    ((Service.mk
        (GitHubClient.mk
          (fun _ _ _ => .ok (PullRequest.mk (some 7) (some true) (some "closed")
            (some "abc123") none))
          (fun _ _ _ _ => (none, none))
          (fun _ _ _ => .error "unused"))
        (GitRunner.mk (fun args =>
          if args = ["cherry-pick", "-m", "1", "abc123"] then some "conflict"
          else none))).ProcessBranch
        (Config.mk 7 ["release-1.0"] "o" "r" "bot" "bot@example.com")
        "release-1.0").1.Error.isSome :=
  c2_cherry_pick_failure_aborts _ _ "release-1.0"
    (PullRequest.mk (some 7) (some true) (some "closed") (some "abc123") none)
    "conflict" rfl rfl rfl (by decide) (by decide) (by decide) (by decide) (by decide)

/-- Claim C3: if GetPR succeeds but the pull request is not merged,
ProcessBranch returns Success=false with a non-empty error message, and the
only external call issued is the GetPR lookup itself — zero git commands, no
FindExistingPR and no CreatePR. -/
theorem c3_not_merged_short_circuit (s : Service) (cfg : Config)
    (targetBranch : String) (pr : PullRequest)
    (hget : s.github.GetPR cfg.RepoOwner cfg.RepoName cfg.PRNumber = .ok pr)
    (hnm : pr.merged ≠ some true) :
    (s.ProcessBranch cfg targetBranch).1.Success = false ∧
    (s.ProcessBranch cfg targetBranch).1.ErrorMessage ≠ "" ∧
    (s.ProcessBranch cfg targetBranch).2 =
      [Call.getPR cfg.RepoOwner cfg.RepoName cfg.PRNumber] := by
  unfold Service.ProcessBranch
  rw [hget]
  simp only [if_neg hnm]
  refine ⟨by trivial, ?_, by trivial⟩
  intro hc
  have hl := congrArg String.length hc
  simp only [String.length_append] at hl
  have h4 : ("PR #" : String).length = 4 := rfl
  have hz : ("" : String).length = 0 := rfl
  omega

/-- Witness for C3 at a concrete service reporting an unmerged pull request. -/
theorem c3_not_merged_short_circuit_witness :
    ((Service.mk
        (GitHubClient.mk
          (fun _ _ _ => .ok (PullRequest.mk (some 7) (some false) (some "open")
            none none))
          (fun _ _ _ _ => (none, none))
          (fun _ _ _ => .error "unused"))
        (GitRunner.mk (fun _ => none))).ProcessBranch
        (Config.mk 7 ["release-1.0"] "o" "r" "bot" "bot@example.com")
        "release-1.0").1.Success = false ∧
    ((Service.mk
        (GitHubClient.mk
          (fun _ _ _ => .ok (PullRequest.mk (some 7) (some false) (some "open")
            none none))
          (fun _ _ _ _ => (none, none))
          (fun _ _ _ => .error "unused"))
        (GitRunner.mk (fun _ => none))).ProcessBranch
        (Config.mk 7 ["release-1.0"] "o" "r" "bot" "bot@example.com")
        "release-1.0").1.ErrorMessage ≠ "" ∧
    ((Service.mk
        (GitHubClient.mk
          (fun _ _ _ => .ok (PullRequest.mk (some 7) (some false) (some "open")
            none none))
          (fun _ _ _ _ => (none, none))
          (fun _ _ _ => .error "unused"))
        (GitRunner.mk (fun _ => none))).ProcessBranch
        (Config.mk 7 ["release-1.0"] "o" "r" "bot" "bot@example.com")
        "release-1.0").2 = [Call.getPR "o" "r" 7] :=
  c3_not_merged_short_circuit _ _ "release-1.0"
    (PullRequest.mk (some 7) (some false) (some "open") none none)
    rfl (by decide)

/-- Claim C4: if GetPR returns a merged pull request and FindExistingPR finds
an existing follow-up, ProcessBranch returns Success=true with ExistingPR set
to it, and issues only the GetPR and FindExistingPR calls — zero git commands
and no CreatePR (idempotent re-run protection). -/
theorem c4_existing_pr_short_circuit (s : Service) (cfg : Config)
    (targetBranch : String) (pr epr : PullRequest)
    (hget : s.github.GetPR cfg.RepoOwner cfg.RepoName cfg.PRNumber = .ok pr)
    (hmerged : pr.merged = some true)
    (hfind : (s.github.FindExistingPR cfg.RepoOwner cfg.RepoName
        (cherryPickBranchName cfg.PRNumber targetBranch) targetBranch).1 = some epr) :
    (s.ProcessBranch cfg targetBranch).1.Success = true ∧
    (s.ProcessBranch cfg targetBranch).1.ExistingPR = some epr ∧
    (s.ProcessBranch cfg targetBranch).2 =
      [Call.getPR cfg.RepoOwner cfg.RepoName cfg.PRNumber,
       Call.findExistingPR cfg.RepoOwner cfg.RepoName
         (cherryPickBranchName cfg.PRNumber targetBranch) targetBranch] := by
  unfold Service.ProcessBranch
  rw [hget]
  simp only [hmerged, if_pos rfl, hfind]
  simp

/-- Witness for C4 at a concrete service whose lookup reports an existing
follow-up pull request. -/
theorem c4_existing_pr_short_circuit_witness :
    ((Service.mk
        (GitHubClient.mk
          (fun _ _ _ => .ok (PullRequest.mk (some 7) (some true) (some "closed")
            (some "abc123") none))
          (fun _ _ _ _ => (some (PullRequest.mk (some 456) none none none none), none))
          (fun _ _ _ => .error "unused"))
        (GitRunner.mk (fun _ => none))).ProcessBranch
        (Config.mk 7 ["release-1.0"] "o" "r" "bot" "bot@example.com")
        "release-1.0").1.Success = true ∧
    ((Service.mk
        (GitHubClient.mk
          (fun _ _ _ => .ok (PullRequest.mk (some 7) (some true) (some "closed")
            (some "abc123") none))
          (fun _ _ _ _ => (some (PullRequest.mk (some 456) none none none none), none))
          (fun _ _ _ => .error "unused"))
        (GitRunner.mk (fun _ => none))).ProcessBranch
        (Config.mk 7 ["release-1.0"] "o" "r" "bot" "bot@example.com")
        "release-1.0").1.ExistingPR =
      some (PullRequest.mk (some 456) none none none none) ∧
    ((Service.mk
        (GitHubClient.mk
          (fun _ _ _ => .ok (PullRequest.mk (some 7) (some true) (some "closed")
            (some "abc123") none))
          (fun _ _ _ _ => (some (PullRequest.mk (some 456) none none none none), none))
          (fun _ _ _ => .error "unused"))
        (GitRunner.mk (fun _ => none))).ProcessBranch
        (Config.mk 7 ["release-1.0"] "o" "r" "bot" "bot@example.com")
        "release-1.0").2 =
      [Call.getPR "o" "r" 7,
       Call.findExistingPR "o" "r" (cherryPickBranchName 7 "release-1.0") "release-1.0"] :=
  c4_existing_pr_short_circuit _ _ "release-1.0"
    (PullRequest.mk (some 7) (some true) (some "closed") (some "abc123") none)
    (PullRequest.mk (some 456) none none none none)
    rfl rfl rfl

/-- Claim C5: ProcessBranches returns exactly one Result per configured branch,
positionally aligned with the input order: the i-th Result is the Result of
ProcessBranch on the i-th branch, and its Branch field equals that branch.
Each slot depends only on its own branch, so one branch's failure never
changes another's Result. -/
theorem c5_fan_out_positional (s : Service) (cfg : Config) (i : Nat) :
    (s.ProcessBranches cfg).length = cfg.Branches.length ∧
    (s.ProcessBranches cfg)[i]? =
      (cfg.Branches[i]?).map (fun b => (s.ProcessBranch cfg b).1) ∧
    ((s.ProcessBranches cfg)[i]?).map Result.Branch = cfg.Branches[i]? := by
  unfold Service.ProcessBranches
  refine ⟨List.length_map _ _, List.getElem?_map _ _ _, ?_⟩
  cases h : cfg.Branches[i]? with
  | none => simp [List.getElem?_map, h]
  | some b => simp [List.getElem?_map, h, processBranch_branch_eq]

/-- Claim C6: when GetPR reports a merged pull request and FindExistingPR
returns an error together with no pull request, ProcessBranch does not fail at
the dedup step: the lookup error is ignored (only logged), the lookup counts
as having found nothing, and the pipeline proceeds through the six git
operations and, on their success, to CreatePR, returning the created pull
request with Success=true and a nil Error. -/
theorem c6_lookup_error_nonfatal (s : Service) (cfg : Config)
    (targetBranch : String) (pr newPR : PullRequest) (ferr : String)
    (hget : s.github.GetPR cfg.RepoOwner cfg.RepoName cfg.PRNumber = .ok pr)
    (hmerged : pr.merged = some true)
    (hfind : s.github.FindExistingPR cfg.RepoOwner cfg.RepoName
        (cherryPickBranchName cfg.PRNumber targetBranch) targetBranch =
        (none, some ferr))
    (hgit : ∀ args, s.git.Run args = none)
    (hcreate : s.github.CreatePR cfg.RepoOwner cfg.RepoName
        (mkNewPullRequest cfg.PRNumber targetBranch) = .ok newPR) :
    (s.ProcessBranch cfg targetBranch).1.Success = true ∧
    (s.ProcessBranch cfg targetBranch).1.NewPR = some newPR ∧
    (s.ProcessBranch cfg targetBranch).1.Error = none ∧
    gitCalls (s.ProcessBranch cfg targetBranch).2 =
      [["config", "user.name", cfg.GitUserName],
       ["config", "user.email", cfg.GitUserEmail],
       ["fetch", "origin", targetBranch],
       ["checkout", "-b", cherryPickBranchName cfg.PRNumber targetBranch,
        "origin/" ++ targetBranch],
       ["cherry-pick", "-m", "1", pr.GetMergeCommitSHA],
       ["push", "origin", cherryPickBranchName cfg.PRNumber targetBranch]] := by
  unfold Service.ProcessBranch
  rw [hget]
  simp only [hmerged, if_pos rfl, hfind, Service.performGitOperations, hgit, hcreate,
    gitCalls, List.filterMap]
  simp

/-- Witness for C6 at a concrete service whose dedup lookup fails with a
transport error. -/
theorem c6_lookup_error_nonfatal_witness :
    ((Service.mk
        (GitHubClient.mk
          (fun _ _ _ => .ok (PullRequest.mk (some 7) (some true) (some "closed")
            (some "abc123") none))
          (fun _ _ _ _ => (none, some "rate limited"))
          (fun _ _ _ => .ok (PullRequest.mk (some 9) none none none none)))
        (GitRunner.mk (fun _ => none))).ProcessBranch
        (Config.mk 7 ["release-1.0"] "o" "r" "bot" "bot@example.com")
        "release-1.0").1.Success = true ∧
    ((Service.mk
        (GitHubClient.mk
          (fun _ _ _ => .ok (PullRequest.mk (some 7) (some true) (some "closed")
            (some "abc123") none))
          (fun _ _ _ _ => (none, some "rate limited"))
          (fun _ _ _ => .ok (PullRequest.mk (some 9) none none none none)))
        (GitRunner.mk (fun _ => none))).ProcessBranch
        (Config.mk 7 ["release-1.0"] "o" "r" "bot" "bot@example.com")
        "release-1.0").1.NewPR = some (PullRequest.mk (some 9) none none none none) ∧
    ((Service.mk
        (GitHubClient.mk
          (fun _ _ _ => .ok (PullRequest.mk (some 7) (some true) (some "closed")
            (some "abc123") none))
          (fun _ _ _ _ => (none, some "rate limited"))
          (fun _ _ _ => .ok (PullRequest.mk (some 9) none none none none)))
        (GitRunner.mk (fun _ => none))).ProcessBranch
        (Config.mk 7 ["release-1.0"] "o" "r" "bot" "bot@example.com")
        "release-1.0").1.Error = none ∧
    gitCalls ((Service.mk
        (GitHubClient.mk
          (fun _ _ _ => .ok (PullRequest.mk (some 7) (some true) (some "closed")
            (some "abc123") none))
          (fun _ _ _ _ => (none, some "rate limited"))
          (fun _ _ _ => .ok (PullRequest.mk (some 9) none none none none)))
        (GitRunner.mk (fun _ => none))).ProcessBranch
        (Config.mk 7 ["release-1.0"] "o" "r" "bot" "bot@example.com")
        "release-1.0").2 =
      [["config", "user.name", "bot"],
       ["config", "user.email", "bot@example.com"],
       ["fetch", "origin", "release-1.0"],
       ["checkout", "-b", cherryPickBranchName 7 "release-1.0",
        "origin/" ++ "release-1.0"],
       ["cherry-pick", "-m", "1",
        (PullRequest.mk (some 7) (some true) (some "closed") (some "abc123")
          none).GetMergeCommitSHA],
       ["push", "origin", cherryPickBranchName 7 "release-1.0"]] :=
  c6_lookup_error_nonfatal _ _ "release-1.0"
    (PullRequest.mk (some 7) (some true) (some "closed") (some "abc123") none)
    (PullRequest.mk (some 9) none none none none)
    "rate limited" rfl rfl rfl (fun _ => rfl) rfl

/-- The property asserted by the spec for a well-formed Outcome: exactly one of
the fields ExistingPR, NewPR, Error is populated. -/
def exactlyOnePopulated (r : Result) : Prop :=
  (r.ExistingPR.isSome ∧ r.NewPR = none ∧ r.Error = none) ∨
  (r.ExistingPR = none ∧ r.NewPR.isSome ∧ r.Error = none) ∨
  (r.ExistingPR = none ∧ r.NewPR = none ∧ r.Error.isSome)

/-- The invariant the code actually maintains: at most one of ExistingPR,
NewPR, Error is populated; Success holds iff one of the two references is
populated; and every failure carries either a non-nil Error or a non-empty
ErrorMessage (the not-merged path sets only the message). -/
def wellFormedResult (r : Result) : Prop :=
  ¬(r.ExistingPR.isSome ∧ r.NewPR.isSome) ∧
  ¬(r.ExistingPR.isSome ∧ r.Error.isSome) ∧
  ¬(r.NewPR.isSome ∧ r.Error.isSome) ∧
  (r.Success = true ↔ (r.ExistingPR.isSome ∨ r.NewPR.isSome)) ∧
  (r.Success = false → (r.Error.isSome ∨ r.ErrorMessage ≠ ""))

/-- The not-merged error message is never empty. -/
theorem notMergedMessage_ne_empty (n : Int) (st : String) :
    "PR #" ++ toString n ++ " is not merged yet (state: " ++ st ++
      "). Cherry-pick requires merged PRs." ≠ "" := by
  intro hc
  have hl := congrArg String.length hc
  simp only [String.length_append] at hl
  have h4 : ("PR #" : String).length = 4 := rfl
  have hz : ("" : String).length = 0 := rfl
  omega

/-- A pull request reported by the remote as not merged. -/
def openPR : PullRequest :=
  { number := some 7, merged := some false, state := some "open",
    mergeCommitSHA := none, htmlURL := none }

/-- A service whose remote reports `openPR` and whose git runner always
succeeds. -/
def openPRService : Service :=
  { github := { GetPR := fun _ _ _ => .ok openPR,
                FindExistingPR := fun _ _ _ _ => (none, none),
                CreatePR := fun _ _ _ => .error "unused" },
    git := { Run := fun _ => none } }

/-- A small structurally valid configuration. -/
def sampleConfig : Config :=
  { PRNumber := 7, Branches := ["release-1.0"], RepoOwner := "o", RepoName := "r",
    GitUserName := "bot", GitUserEmail := "bot@example.com" }

/-- Claim C7 as stated is false: on the not-merged path the code sets only
ErrorMessage, leaving ExistingPR, NewPR and Error all unpopulated, so
"exactly one of the three is populated" fails at this concrete input. -/
theorem c7_counterexample_not_merged_populates_none :
    ¬ exactlyOnePopulated (openPRService.ProcessBranch sampleConfig "release-1.0").1 := by
  unfold exactlyOnePopulated
  decide

/-- Claim C7, amended: every Result of ProcessBranch has at most one of
ExistingPR, NewPR, Error populated; Success is true iff ExistingPR or NewPR
is populated; and on failure either Error is non-nil or ErrorMessage is
non-empty (only the message on the not-merged path). -/
theorem c7_amended_result_well_formed (s : Service) (cfg : Config)
    (targetBranch : String) :
    wellFormedResult (s.ProcessBranch cfg targetBranch).1 := by
  unfold Service.ProcessBranch
  cases hget : s.github.GetPR cfg.RepoOwner cfg.RepoName cfg.PRNumber with
  | error err => simp [wellFormedResult]
  | ok pr =>
    simp only
    split
    · cases hfind : (s.github.FindExistingPR cfg.RepoOwner cfg.RepoName
          (cherryPickBranchName cfg.PRNumber targetBranch) targetBranch).1 with
      | some epr => simp [hfind, wellFormedResult]
      | none =>
        simp only [hfind]
        cases hgit : s.performGitOperations cfg targetBranch
            (cherryPickBranchName cfg.PRNumber targetBranch) pr.GetMergeCommitSHA with
        | mk gerr gtrace =>
          cases gerr with
          | some e => simp [hgit, wellFormedResult]
          | none =>
            simp only [hgit]
            cases s.github.CreatePR cfg.RepoOwner cfg.RepoName
                (mkNewPullRequest cfg.PRNumber targetBranch) with
            | error err => simp [wellFormedResult]
            | ok newPR => simp [wellFormedResult]
    · simp only [wellFormedResult]
      refine ⟨by simp, by simp, by simp, by simp, fun _ => Or.inr ?_⟩
      exact notMergedMessage_ne_empty cfg.PRNumber pr.GetState

/-- Claim C8: once validation passes, the CLI's run returns a non-nil error
exactly when some Result of ProcessBranches has Success=false and no
ExistingPR; when every Result is a success or carries an existing follow-up,
run returns nil. -/
theorem c8_run_exit_contract (s : Service) (cfg : Config)
    (hv : ValidateConfig cfg = none) :
    ((run s cfg).isSome ↔
      ∃ r ∈ s.ProcessBranches cfg, r.Success = false ∧ r.ExistingPR = none) := by
  unfold run
  rw [hv]
  simp only
  cases hf : (s.ProcessBranches cfg).find? (fun r => !r.Success && r.ExistingPR.isNone) with
  | none =>
    simp only [Option.isSome_none, Bool.false_eq_true, false_iff, not_exists]
    intro r hr
    have hnp := List.find?_eq_none.mp hf r hr.1
    simp [hr.2.1, hr.2.2] at hnp
  | some r =>
    simp only [Option.isSome_some, true_iff]
    refine ⟨r, List.mem_of_find?_eq_some hf, ?_⟩
    have hp := List.find?_some hf
    simp only [Bool.and_eq_true, Bool.not_eq_true', Option.isNone_iff_eq_none] at hp
    exact hp

/-- Witness for C8 at a concrete service whose single branch genuinely fails
(unmerged source pull request). -/
theorem c8_run_exit_contract_witness :
    ((run openPRService sampleConfig).isSome ↔
      ∃ r ∈ openPRService.ProcessBranches sampleConfig,
        r.Success = false ∧ r.ExistingPR = none) :=
  c8_run_exit_contract openPRService sampleConfig (by decide)

/-- Claim C9: the head branch name is computed exactly as
cherry-pick-(sourceId)-to-(targetBranch); it is deterministic and, for a fixed
source id, injective in the target branch; ProcessBranch performs the dedup
lookup with exactly that head and the target branch as base; the wire-level
lookup queries the remote with head owner:(name) and base target (its answer
to exactly that query determines the result) and consumes at most the first
match when several are returned, without crashing. -/
theorem c9_branch_name_and_lookup_contract :
    (∀ (n : Int) (t : String),
      cherryPickBranchName n t = "cherry-pick-" ++ toString n ++ "-to-" ++ t) ∧
    (∀ (n : Int) (t₁ t₂ : String),
      cherryPickBranchName n t₁ = cherryPickBranchName n t₂ → t₁ = t₂) ∧
    (∀ (s : Service) (cfg : Config) (targetBranch : String) (pr : PullRequest),
      s.github.GetPR cfg.RepoOwner cfg.RepoName cfg.PRNumber = .ok pr →
      pr.merged = some true →
      Call.findExistingPR cfg.RepoOwner cfg.RepoName
        (cherryPickBranchName cfg.PRNumber targetBranch) targetBranch ∈
        (s.ProcessBranch cfg targetBranch).2) ∧
    (∀ (l₁ l₂ : String → String → PullRequestListOptions →
          Except String (List PullRequest)) (owner repo head base : String),
      l₁ owner repo (PullRequestListOptions.mk "all" (owner ++ ":" ++ head) base 1) =
        l₂ owner repo (PullRequestListOptions.mk "all" (owner ++ ":" ++ head) base 1) →
      DefaultGitHubClient.FindExistingPR l₁ owner repo head base =
        DefaultGitHubClient.FindExistingPR l₂ owner repo head base) ∧
    (∀ (listPRs : String → String → PullRequestListOptions →
          Except String (List PullRequest)) (owner repo head base : String)
        (p : PullRequest) (rest : List PullRequest),
      listPRs owner repo (PullRequestListOptions.mk "all" (owner ++ ":" ++ head) base 1) =
        .ok (p :: rest) →
      DefaultGitHubClient.FindExistingPR listPRs owner repo head base =
        (some p, none)) := by
  refine ⟨fun n t => rfl, ?_, ?_, ?_, ?_⟩
  · intro n t₁ t₂ h
    unfold cherryPickBranchName at h
    have hd := congrArg String.data h
    simp only [String.data_append] at hd
    exact String.ext (List.append_cancel_left hd)
  · intro s cfg targetBranch pr hget hmerged
    unfold Service.ProcessBranch
    rw [hget]
    simp only [hmerged, if_pos rfl]
    cases hfind : (s.github.FindExistingPR cfg.RepoOwner cfg.RepoName
        (cherryPickBranchName cfg.PRNumber targetBranch) targetBranch).1 with
    | some epr => simp [hfind]
    | none =>
      simp only [hfind]
      cases hgit : s.performGitOperations cfg targetBranch
          (cherryPickBranchName cfg.PRNumber targetBranch) pr.GetMergeCommitSHA with
      | mk gerr gtrace =>
        cases gerr with
        | some e => simp [hgit]
        | none =>
          simp only [hgit]
          cases s.github.CreatePR cfg.RepoOwner cfg.RepoName
              (mkNewPullRequest cfg.PRNumber targetBranch) with
          | error err => simp
          | ok newPR => simp
  · intro l₁ l₂ owner repo head base h
    unfold DefaultGitHubClient.FindExistingPR
    simp only [h]
  · intro listPRs owner repo head base p rest h
    unfold DefaultGitHubClient.FindExistingPR
    simp only [h]
    simp

/-- Witness for C9: the branch name at concrete inputs, injectivity applied at
equal names, the lookup call recorded in a concrete trace, and first-match
consumption on a two-element remote answer. -/
theorem c9_branch_name_and_lookup_contract_witness :
    cherryPickBranchName 7 "release-1.0" =
      "cherry-pick-" ++ toString (7 : Int) ++ "-to-" ++ "release-1.0" ∧
    "release-1.0" = "release-1.0" ∧
    Call.findExistingPR "o" "r" (cherryPickBranchName 7 "release-1.0") "release-1.0" ∈
      ((Service.mk
          (GitHubClient.mk
            (fun _ _ _ => .ok (PullRequest.mk (some 7) (some true) (some "closed")
              (some "abc123") none))
            (fun _ _ _ _ => (none, none))
            (fun _ _ _ => .error "unused"))
          (GitRunner.mk (fun _ => none))).ProcessBranch sampleConfig
          "release-1.0").2 ∧
    DefaultGitHubClient.FindExistingPR
        (fun _ _ _ => .ok [PullRequest.mk (some 1) none none none none,
          PullRequest.mk (some 2) none none none none]) "o" "r" "h" "b" =
      (some (PullRequest.mk (some 1) none none none none), none) :=
  ⟨c9_branch_name_and_lookup_contract.1 7 "release-1.0",
   c9_branch_name_and_lookup_contract.2.1 7 "release-1.0" "release-1.0" rfl,
   c9_branch_name_and_lookup_contract.2.2.1 _ sampleConfig "release-1.0"
     (PullRequest.mk (some 7) (some true) (some "closed") (some "abc123") none) rfl rfl,
   c9_branch_name_and_lookup_contract.2.2.2.2
     (fun _ _ _ => .ok [PullRequest.mk (some 1) none none none none,
       PullRequest.mk (some 2) none none none none]) "o" "r" "h" "b"
     (PullRequest.mk (some 1) none none none none)
     [PullRequest.mk (some 2) none none none none] rfl⟩

/-- Claim C10: pre-flight validation rejects only the exact zero id, so a
Config with a strictly negative PRNumber, a non-empty branch list and
non-empty owner and name passes ValidateConfig (returns nil). -/
theorem c10_negative_pr_passes_validation (cfg : Config)
    (hneg : cfg.PRNumber < 0) (hb : cfg.Branches ≠ [])
    (ho : cfg.RepoOwner ≠ "") (hn : cfg.RepoName ≠ "") :
    ValidateConfig cfg = none := by
  have h0 : ¬ cfg.PRNumber = 0 := by omega
  have h1 : ¬ cfg.Branches.length = 0 := by
    simpa [List.length_eq_zero] using hb
  have h2 : ¬ (cfg.RepoOwner = "" ∨ cfg.RepoName = "") := by
    simp [ho, hn]
  simp [ValidateConfig, h0, h1, h2]

/-- Witness for C10: the negative id -5 passes validation. -/
theorem c10_negative_pr_passes_validation_witness :
    ((-5 : Int) < 0) ∧
    ValidateConfig (Config.mk (-5) ["release-1.0"] "o" "r" "bot" "bot@example.com") =
      none :=
  ⟨by decide,
   c10_negative_pr_passes_validation _ (by decide) (by decide) (by decide) (by decide)⟩
